import Mathlib

/-!
Shallow embedding of `src/app.py` (Gemini Math Coach): the session state
machine driven by Streamlit reruns, the hint engine `get_gemini_hint`, the
inline answer check, and the problem loader `load_problems`.

A Streamlit script runs top to bottom on every user interaction ("rerun").
We model one rerun as a function of the problem list loaded for that run
(the CSV fetch result), the at-most-one pending button action handled in
that run, and the persistent `st.session_state`.  The remote Gemini service
is a parameter `rm : GeminiRequest → Except String String` (error cause or
response text); the requests a rerun issues are returned alongside the new
state so that "no network call" is a provable statement.
-/

namespace MathCoach

/-- A problem row: columns `problem_text`, `answer`, `explanation` of the CSV
(`answer` is the `str(...)` form of the cell, as compared on line 133). -/
structure Problem where
  problem_text : String
  answer : String
  explanation : String
deriving DecidableEq, Repr

/-- Roles appearing in `st.session_state.chat_history`:
`"user"` (student) and `"assistant"` (coach). -/
inductive Role where
  | user
  | assistant
deriving DecidableEq, Repr

/-- An entry of `st.session_state.chat_history`. -/
structure ChatMessage where
  role : Role
  content : String
deriving DecidableEq, Repr

/-- The persistent `st.session_state` fields (lines 45-50). -/
structure SessionState where
  current_problem_index : Nat
  hint_level : Nat
  chat_history : List ChatMessage
deriving DecidableEq, Repr

/-- Initial session state (lines 45-50): index 0, hint level 0, empty
transcript. -/
def initState : SessionState :=
  { current_problem_index := 0, hint_level := 0, chat_history := [] }

/-- Roles of the Gemini chat history (line 91): `"user"` or `"model"`. -/
inductive GRole where
  | user
  | model
deriving DecidableEq, Repr

/-- One prior turn passed to `model.start_chat` (line 92): a role and the
single element of `parts`. -/
structure GMessage where
  role : GRole
  parts : String
deriving DecidableEq, Repr

/-- A request to the remote Gemini service: the system instruction the
model is built with (lines 84-87), the replayed history (line 94), and the
final message sent (line 95). -/
structure GeminiRequest where
  system : String
  history : List GMessage
  message : String
deriving DecidableEq, Repr

/-- The hardcoded model identifier (line 81). -/
def target_model_name : String := "gemini-1.5-flash"

/-- The system instruction f-string (lines 68-78), with `level`
substituted. -/
def system_instruction (level : Nat) : String :=
  "\n    You are a Socratic Math Coach for AMC 10.\n    GOAL: Help the student solve the problem WITHOUT giving the answer.\n    CURRENT STATUS: Student is at Hint Level " ++ toString level ++ "/3.\n    INSTRUCTIONS:\n    - Level 1: Ask a clarifying question about a definition.\n    - Level 2: Suggest the first step.\n    - Level 3: Give a formula or strong clue.\n    - NEVER reveal the final answer key.\n    - Keep responses short.\n    "

/-- The history replay loop (lines 89-92): each chat message becomes one
prior turn, `"user"` kept as `user`, anything else (`"assistant"`) mapped
to `model`. -/
def buildHistory (chat_history : List ChatMessage) : List GMessage :=
  chat_history.map fun msg =>
    { role := if msg.role = Role.user then GRole.user else GRole.model
      parts := msg.content }

/-- The final message sent on line 95:
`f"Problem: \x27{problem_text}\x27. I am stuck. Give me a Level {level} hint."`. -/
def finalPrompt (problem_text : String) (level : Nat) : String :=
  "Problem: \x27" ++ problem_text ++ "\x27. I am stuck. Give me a Level " ++
    toString level ++ " hint."

/-- The warning returned when no API key is configured (line 64). -/
def apiKeyWarning : String := "⚠️ Please enter an API Key in the sidebar."

/-- `get_gemini_hint` (lines 62-99).  `api_key` is the sidebar value
(`""` when absent, matching Python falsiness of the empty string);
`rm` is the remote service.  Returns the displayed string together with
the list of remote requests issued (empty or a singleton). -/
def get_gemini_hint (api_key : String) (rm : GeminiRequest → Except String String)
    (problem_text : String) (chat_history : List ChatMessage) (level : Nat) :
    String × List GeminiRequest :=
  if api_key = "" then
    (apiKeyWarning, [])
  else
    let req : GeminiRequest :=
      { system := system_instruction level
        history := buildHistory chat_history
        message := finalPrompt problem_text level }
    match rm req with
    | Except.ok text => (text, [req])
    | Except.error e =>
        ("Error contacting Gemini (" ++ target_model_name ++ "): " ++ e, [req])

/-- Python's `str.strip()` with no argument: surrounding whitespace removed
from both ends. -/
def pyStrip (s : String) : String :=
  String.mk
    (((s.data.dropWhile Char.isWhitespace).reverse.dropWhile
        Char.isWhitespace).reverse)

/-- The inline answer check on line 133:
`str(user_ans).strip() == str(current_problem[\x27answer\x27])`.
Only the submitted side is stripped. -/
def answer_check (user_ans : String) (expected : String) : Bool :=
  pyStrip user_ans == expected

/-- The check as the spec words it — both sides trimmed — kept separate for
comparison with `answer_check`, which is the code's behavior. -/
def check_spec_trimBoth (submitted : String) (expected : String) : Bool :=
  pyStrip submitted == pyStrip expected

/-- The at-most-one button action handled in one rerun. -/
inductive Action where
  /-- Sidebar `Reset Session` button (lines 24-27). -/
  | resetSession
  /-- `💡 Get Hint` button (lines 118-127). -/
  | requestHint
  /-- `Submit Answer` button alone (lines 131-143), with the text input. -/
  | submitAnswer (text : String)
  /-- `Next Problem ➡️` button (lines 137-141); it only renders when the
  answer in the text input checks as correct, so it carries that text. -/
  | nextProblem (submitted : String)
deriving DecidableEq, Repr

/-- One rerun of the script: the problem list `load_problems(sheet_url)`
produced for this run, and the pending action, if any. -/
structure Rerun where
  problems : List Problem
  action : Option Action
deriving DecidableEq, Repr

/-- Sidebar handling (lines 24-27): the Reset Session button zeroes the
hint level and clears the transcript before the rest of the script runs. -/
def applyReset (a : Option Action) (s : SessionState) : SessionState :=
  match a with
  | some Action.resetSession => { s with hint_level := 0, chat_history := [] }
  | _ => s

/-- Problem selection with safety check (lines 52-59): an empty frame stops
the script (`none`); an out-of-range index is reset to 0 in session state
before `df.iloc` is taken. -/
def select (problems : List Problem) (s : SessionState) : Option SessionState :=
  if problems.isEmpty then none
  else if s.current_problem_index ≥ problems.length then
    some { s with current_problem_index := 0 }
  else some s

/-- The main-area buttons (lines 117-143), given the already-selected
session state.  `Get Hint` below level 3 increments the level, calls the
engine and appends the student/coach pair (lines 119-125); at level 3 it
only shows a warning (line 127).  `Submit Answer` mutates nothing.
`Next Problem` applies only when the carried answer checks correct
(lines 133-141). -/
def mainButtons (api_key : String) (rm : GeminiRequest → Except String String)
    (problems : List Problem) (a : Option Action) (s : SessionState) :
    SessionState × List GeminiRequest :=
  let prob := problems.getD s.current_problem_index ⟨"", "", ""⟩
  match a with
  | some Action.requestHint =>
    if s.hint_level < 3 then
      let level := s.hint_level + 1
      let res := get_gemini_hint api_key rm prob.problem_text s.chat_history level
      ({ s with
          hint_level := level
          chat_history := s.chat_history ++
            [⟨Role.user, "I\x27m stuck."⟩, ⟨Role.assistant, res.1⟩] }, res.2)
    else (s, [])
  | some (Action.nextProblem submitted) =>
    if answer_check submitted prob.answer then
      ({ s with
          current_problem_index := s.current_problem_index + 1
          hint_level := 0
          chat_history := [] }, [])
    else (s, [])
  | _ => (s, [])

/-- One full rerun of the script: sidebar reset, load, safety
check/selection, then the main buttons.  Returns the new session state and
the remote requests issued during the run. -/
def rerun (api_key : String) (rm : GeminiRequest → Except String String)
    (r : Rerun) (s : SessionState) : SessionState × List GeminiRequest :=
  let s1 := applyReset r.action s
  match select r.problems s1 with
  | none => (s1, [])
  | some s2 => mainButtons api_key rm r.problems r.action s2

/-- A whole interactive session: reruns folded over the initial state.
A `ReloadProblemBank` is two consecutive entries whose `problems` differ. -/
def runScript (api_key : String) (rm : GeminiRequest → Except String String) :
    List Rerun → SessionState → SessionState
  | [], s => s
  | r :: rs, s => runScript api_key rm rs (rerun api_key rm r s).1

/-- `load_problems` (lines 32-40), with the `pd.read_csv(url,
on_bad_lines=\x27skip\x27)` call modelled abstractly: the source either
raises (`Except.error` with the exception text) or yields a list of rows of
which the malformed ones (`none`) are skipped.  On an exception the handler
shows `f"Error loading Sheet: {e}"` and returns an empty frame. -/
def load_problems : Except String (List (Option Problem)) →
    List Problem × Option String
  | Except.ok rows => (rows.filterMap id, none)
  | Except.error e => ([], some ("Error loading Sheet: " ++ e))

/-- A transcript made of k (student, coach) content pairs, in order — the
shape the Get Hint handler maintains. -/
def pairsToTranscript : List (String × String) → List ChatMessage
  | [] => []
  | (stu, coach) :: rest =>
      ⟨Role.user, stu⟩ :: ⟨Role.assistant, coach⟩ :: pairsToTranscript rest

/-- The k prior Gemini turns that replaying such a transcript produces:
student content under role `user`, coach content under role `model`. -/
def pairsToHistory : List (String × String) → List GMessage
  | [] => []
  | (stu, coach) :: rest =>
      ⟨GRole.user, stu⟩ :: ⟨GRole.model, coach⟩ :: pairsToHistory rest

/-- Decides that a transcript is a sequence of (student, coach) pairs:
even length, strictly alternating, starting with a student message. -/
def pairedUA : List ChatMessage → Bool
  | [] => true
  | ⟨Role.user, _⟩ :: ⟨Role.assistant, _⟩ :: rest => pairedUA rest
  | _ => false

/-- The session-state invariant the script maintains: the hint level is at
most 3 and the transcript is exactly one (student, coach) pair per hint
level. -/
def Inv (s : SessionState) : Prop :=
  s.hint_level ≤ 3 ∧
  ∃ pairs : List (String × String),
    s.chat_history = pairsToTranscript pairs ∧ pairs.length = s.hint_level

theorem pairsToTranscript_append (l : List (String × String)) (a b : String) :
    pairsToTranscript (l ++ [(a, b)]) =
      pairsToTranscript l ++ [⟨Role.user, a⟩, ⟨Role.assistant, b⟩] := by
  induction l with
  | nil => rfl
  | cons p rest ih => cases p; simp [pairsToTranscript, ih]

theorem pairsToTranscript_length (l : List (String × String)) :
    (pairsToTranscript l).length = 2 * l.length := by
  induction l with
  | nil => rfl
  | cons p rest ih =>
      cases p
      simp [pairsToTranscript, ih]
      omega

theorem pairedUA_pairsToTranscript (l : List (String × String)) :
    pairedUA (pairsToTranscript l) = true := by
  induction l with
  | nil => rfl
  | cons p rest ih =>
      cases p
      simpa [pairsToTranscript, pairedUA] using ih

theorem pairsToHistory_length (l : List (String × String)) :
    (pairsToHistory l).length = 2 * l.length := by
  induction l with
  | nil => rfl
  | cons p rest ih =>
      cases p
      simp [pairsToHistory, ih]
      omega

theorem buildHistory_pairsToTranscript (l : List (String × String)) :
    buildHistory (pairsToTranscript l) = pairsToHistory l := by
  induction l with
  | nil => rfl
  | cons p rest ih =>
      cases p
      simp [pairsToTranscript, pairsToHistory, buildHistory] at ih ⊢
      exact ih

theorem select_some_spec {ps : List Problem} {s s' : SessionState}
    (h : select ps s = some s') :
    s'.current_problem_index < ps.length ∧ s'.hint_level = s.hint_level ∧
      s'.chat_history = s.chat_history := by
  unfold select at h
  split at h
  · exact absurd h (by simp)
  · rename_i hne
    have hpos : 0 < ps.length := by
      cases ps with
      | nil => simp at hne
      | cons p rest => simp
    split at h
    · cases h
      exact ⟨hpos, rfl, rfl⟩
    · rename_i hlt
      cases h
      exact ⟨by omega, rfl, rfl⟩

theorem select_of_lt {ps : List Problem} {s : SessionState}
    (h : s.current_problem_index < ps.length) : select ps s = some s := by
  unfold select
  have hne : ps.isEmpty = false := by
    cases ps with
    | nil => simp at h
    | cons p rest => rfl
  simp [hne]
  omega

theorem select_of_ge {ps : List Problem} {s : SessionState} (hne : ps ≠ [])
    (h : ps.length ≤ s.current_problem_index) :
    select ps s = some { s with current_problem_index := 0 } := by
  unfold select
  have hne' : ps.isEmpty = false := by
    cases ps with
    | nil => exact absurd rfl hne
    | cons p rest => rfl
  simp [hne']
  omega

theorem inv_initState : Inv initState :=
  ⟨by simp [initState], [], rfl, rfl⟩

theorem inv_applyReset (a : Option Action) {s : SessionState} (h : Inv s) :
    Inv (applyReset a s) := by
  unfold applyReset
  split
  · exact ⟨by simp, [], rfl, rfl⟩
  · exact h

theorem inv_select {ps : List Problem} {s s' : SessionState}
    (h : select ps s = some s') (hs : Inv s) : Inv s' := by
  obtain ⟨-, hh, hc⟩ := select_some_spec h
  obtain ⟨h3, pairs, hch, hlen⟩ := hs
  exact ⟨hh ▸ h3, pairs, hc ▸ hch, by rw [hh, hlen]⟩

theorem inv_mainButtons (ak : String) (rm : GeminiRequest → Except String String)
    (ps : List Problem) (a : Option Action) {s : SessionState} (h : Inv s) :
    Inv (mainButtons ak rm ps a s).1 := by
  obtain ⟨h3, pairs, hch, hlen⟩ := h
  match a with
  | none => exact ⟨h3, pairs, hch, hlen⟩
  | some Action.resetSession => exact ⟨h3, pairs, hch, hlen⟩
  | some (Action.submitAnswer t) => exact ⟨h3, pairs, hch, hlen⟩
  | some Action.requestHint =>
      simp only [mainButtons]
      by_cases hl : s.hint_level < 3
      · rw [if_pos hl]
        refine ⟨?_, pairs ++
          [("I\x27m stuck.",
            (get_gemini_hint ak rm
              (ps.getD s.current_problem_index ⟨"", "", ""⟩).problem_text
              s.chat_history (s.hint_level + 1)).1)], ?_, ?_⟩
        · show s.hint_level + 1 ≤ 3
          omega
        · simp [pairsToTranscript_append, hch]
        · simp [hlen]
      · rw [if_neg hl]
        exact ⟨h3, pairs, hch, hlen⟩
  | some (Action.nextProblem sub) =>
      simp only [mainButtons]
      by_cases hc : answer_check sub
          (ps.getD s.current_problem_index ⟨"", "", ""⟩).answer = true
      · rw [if_pos hc]
        exact ⟨by simp, [], rfl, rfl⟩
      · rw [if_neg hc]
        exact ⟨h3, pairs, hch, hlen⟩

theorem inv_rerun (ak : String) (rm : GeminiRequest → Except String String)
    (r : Rerun) {s : SessionState} (h : Inv s) : Inv (rerun ak rm r s).1 := by
  unfold rerun
  have h1 : Inv (applyReset r.action s) := inv_applyReset r.action h
  cases hsel : select r.problems (applyReset r.action s) with
  | none => simpa [hsel] using h1
  | some s2 =>
      simpa [hsel] using inv_mainButtons ak rm r.problems r.action (inv_select hsel h1)

theorem inv_runScript (ak : String) (rm : GeminiRequest → Except String String)
    (trace : List Rerun) {s : SessionState} (h : Inv s) :
    Inv (runScript ak rm trace s) := by
  induction trace generalizing s with
  | nil => exact h
  | cons r rs ih => exact ih (inv_rerun ak rm r h)

theorem get_gemini_hint_no_key (rm : GeminiRequest → Except String String)
    (ptext : String) (hist : List ChatMessage) (lvl : Nat) :
    get_gemini_hint "" rm ptext hist lvl = (apiKeyWarning, []) := rfl

theorem get_gemini_hint_calls {ak : String}
    (rm : GeminiRequest → Except String String) (ptext : String)
    (hist : List ChatMessage) (lvl : Nat) (hak : ak ≠ "") :
    (get_gemini_hint ak rm ptext hist lvl).2 =
      [{ system := system_instruction lvl
         history := buildHistory hist
         message := finalPrompt ptext lvl }] := by
  simp only [get_gemini_hint, if_neg hak]
  cases rm { system := system_instruction lvl
             history := buildHistory hist
             message := finalPrompt ptext lvl } <;> rfl

theorem get_gemini_hint_of_error {ak : String}
    {rm : GeminiRequest → Except String String} {cause : String}
    (ptext : String) (hist : List ChatMessage) (lvl : Nat) (hak : ak ≠ "")
    (hrm : ∀ q, rm q = Except.error cause) :
    get_gemini_hint ak rm ptext hist lvl =
      ("Error contacting Gemini (" ++ target_model_name ++ "): " ++ cause,
       [{ system := system_instruction lvl
          history := buildHistory hist
          message := finalPrompt ptext lvl }]) := by
  simp only [get_gemini_hint, if_neg hak, hrm]

theorem rerun_requestHint (ak : String)
    (rm : GeminiRequest → Except String String) (ps : List Problem)
    (s : SessionState) (h : s.current_problem_index < ps.length)
    (hl : s.hint_level < 3) :
    rerun ak rm ⟨ps, some Action.requestHint⟩ s =
      ({ s with
          hint_level := s.hint_level + 1
          chat_history := s.chat_history ++
            [⟨Role.user, "I\x27m stuck."⟩,
             ⟨Role.assistant,
              (get_gemini_hint ak rm
                (ps.getD s.current_problem_index ⟨"", "", ""⟩).problem_text
                s.chat_history (s.hint_level + 1)).1⟩] },
       (get_gemini_hint ak rm
         (ps.getD s.current_problem_index ⟨"", "", ""⟩).problem_text
         s.chat_history (s.hint_level + 1)).2) := by
  unfold rerun
  have hA : applyReset (some Action.requestHint) s = s := rfl
  simp only [hA, select_of_lt h, mainButtons, if_pos hl]

theorem rerun_nextProblem (ak : String)
    (rm : GeminiRequest → Except String String) (ps : List Problem)
    (s : SessionState) (sub : String)
    (h : s.current_problem_index < ps.length) :
    rerun ak rm ⟨ps, some (Action.nextProblem sub)⟩ s =
      if answer_check sub
          (ps.getD s.current_problem_index ⟨"", "", ""⟩).answer = true then
        ({ s with
            current_problem_index := s.current_problem_index + 1
            hint_level := 0
            chat_history := [] }, [])
      else (s, []) := by
  unfold rerun
  have hA : applyReset (some (Action.nextProblem sub)) s = s := rfl
  simp only [hA, select_of_lt h, mainButtons]

/-- Claim C1: after any sequence of reruns the hint level never exceeds 3,
and a RequestHint issued when the hint level is already 3 is a no-op: the
hint level and the transcript are unchanged and no remote request is
issued (the handler only shows the "no more hints" warning). -/
theorem hint_level_capped_and_fourth_noop (ak : String)
    (rm : GeminiRequest → Except String String) :
    (∀ trace : List Rerun, (runScript ak rm trace initState).hint_level ≤ 3) ∧
    (∀ (r : Rerun) (s : SessionState), r.action = some Action.requestHint →
      s.hint_level = 3 →
      (rerun ak rm r s).1.hint_level = 3 ∧
      (rerun ak rm r s).1.chat_history = s.chat_history ∧
      (rerun ak rm r s).2 = []) := by
  refine ⟨fun trace => (inv_runScript ak rm trace inv_initState).1, ?_⟩
  intro r s ha h3
  unfold rerun
  rw [ha]
  have hA : applyReset (some Action.requestHint) s = s := rfl
  rw [hA]
  cases hsel : select r.problems s with
  | none => simp [hsel, h3]
  | some s2 =>
      obtain ⟨-, hh, hc⟩ := select_some_spec hsel
      have hnl : ¬ s2.hint_level < 3 := by omega
      simp [hsel, mainButtons, hnl, hh, hc, h3]

/-- Claim C1 witness: at hint level 3 a further RequestHint leaves the
level at 3. -/
theorem hint_level_capped_and_fourth_noop_witness :
    (rerun "key" (fun _ => Except.ok "hint")
      ⟨[⟨"2+2?", "4", "sum"⟩], some Action.requestHint⟩ ⟨0, 3, []⟩).1.hint_level = 3 :=
  ((hint_level_capped_and_fourth_noop "key" (fun _ => Except.ok "hint")).2
    ⟨[⟨"2+2?", "4", "sum"⟩], some Action.requestHint⟩ ⟨0, 3, []⟩ rfl rfl).1

/-- Claim C2 counterexample: the code does not trim whitespace around the
expected answer: submitting "12" against stored answer " 12" is judged
Incorrect, although under the claimed both-sides trimming the two would be
equal. -/
theorem answer_check_expected_whitespace_cex :
    answer_check "12" " 12" = false ∧ check_spec_trimBoth "12" " 12" = true :=
  ⟨rfl, rfl⟩

/-- Claim C2 (amended): the answer check trims surrounding whitespace from
the submitted string only and compares it as text against the expected
string verbatim, with no numeric coercion: check("12","12") is Correct,
check(" 12 ","12") is Correct, check("12.0","12") is Incorrect; whitespace
surrounding the expected answer is NOT ignored. -/
theorem answer_check_trims_submitted_only :
    (∀ sub expd : String, answer_check sub expd = true ↔ pyStrip sub = expd) ∧
    answer_check "12" "12" = true ∧
    answer_check " 12 " "12" = true ∧
    answer_check "12.0" "12" = false := by
  refine ⟨fun sub expd => ?_, rfl, rfl, rfl⟩
  simp [answer_check]

/-- Claim C2 witness: a submission with surrounding whitespace checks
correct against an untouched expected answer. -/
theorem answer_check_trims_submitted_only_witness :
    answer_check " 42 " "42" = true :=
  (answer_check_trims_submitted_only.1 " 42 " "42").mpr (by decide)

/-- Claim C3 counterexample: with no API key configured, clicking Get Hint
still mutates the session — the hint level increments and the warning is
appended to the transcript — contradicting "hintLevel and the transcript
are unchanged". -/
theorem missing_key_still_mutates_cex :
    ¬ ((rerun "" (fun _ => Except.error "net")
          ⟨[⟨"2+2?", "4", "sum"⟩], some Action.requestHint⟩ initState).1.hint_level =
        initState.hint_level ∧
       (rerun "" (fun _ => Except.error "net")
          ⟨[⟨"2+2?", "4", "sum"⟩], some Action.requestHint⟩ initState).1.chat_history =
        initState.chat_history) := by
  decide

/-- Claim C3 (amended): with no API key configured the engine returns the
fixed instructive warning string and issues no network call; the
controller however treats the warning like a hint outcome: the hint level
is incremented and the warning is appended to the transcript as the coach
message. -/
theorem missing_key_warning_no_call (rm : GeminiRequest → Except String String)
    (ps : List Problem) (s : SessionState)
    (h : s.current_problem_index < ps.length) (hl : s.hint_level < 3) :
    (∀ (ptext : String) (hist : List ChatMessage) (lvl : Nat),
      get_gemini_hint "" rm ptext hist lvl = (apiKeyWarning, [])) ∧
    (rerun "" rm ⟨ps, some Action.requestHint⟩ s).2 = [] ∧
    (rerun "" rm ⟨ps, some Action.requestHint⟩ s).1.hint_level = s.hint_level + 1 ∧
    (rerun "" rm ⟨ps, some Action.requestHint⟩ s).1.chat_history =
      s.chat_history ++
        [⟨Role.user, "I\x27m stuck."⟩, ⟨Role.assistant, apiKeyWarning⟩] := by
  refine ⟨fun ptext hist lvl => rfl, ?_, ?_, ?_⟩ <;>
    rw [rerun_requestHint "" rm ps s h hl] <;> rfl

/-- Claim C3 witness: no request is issued when the key is absent. -/
theorem missing_key_warning_no_call_witness :
    (rerun "" (fun _ => Except.ok "unused")
      ⟨[⟨"2+2?", "4", "sum"⟩], some Action.requestHint⟩ initState).2 = [] :=
  (missing_key_warning_no_call (fun _ => Except.ok "unused")
    [⟨"2+2?", "4", "sum"⟩] initState (by decide) (by decide)).2.1

/-- Claim C4: if the remote call fails, the engine returns a descriptive
string embedding the failure cause and the attempted model identifier, and
the controller treats it as a normal hint outcome: the message is appended
to the transcript and the hint-level increment is consumed. -/
theorem remote_failure_is_normal_hint (ak : String)
    (rm : GeminiRequest → Except String String) (ps : List Problem)
    (s : SessionState) (cause : String) (hak : ak ≠ "")
    (hrm : ∀ q, rm q = Except.error cause)
    (h : s.current_problem_index < ps.length) (hl : s.hint_level < 3) :
    (rerun ak rm ⟨ps, some Action.requestHint⟩ s).1.hint_level = s.hint_level + 1 ∧
    (rerun ak rm ⟨ps, some Action.requestHint⟩ s).1.chat_history =
      s.chat_history ++ [⟨Role.user, "I\x27m stuck."⟩,
        ⟨Role.assistant,
         "Error contacting Gemini (" ++ target_model_name ++ "): " ++ cause⟩] := by
  have he := get_gemini_hint_of_error
    (ps.getD s.current_problem_index ⟨"", "", ""⟩).problem_text s.chat_history
    (s.hint_level + 1) hak hrm
  rw [rerun_requestHint ak rm ps s h hl]
  exact ⟨rfl, by rw [he]⟩

/-- Claim C4 witness: a failing remote call surfaces as a coach message
naming the cause and the model identifier. -/
theorem remote_failure_is_normal_hint_witness :
    (rerun "key" (fun _ => Except.error "quota exceeded")
      ⟨[⟨"2+2?", "4", "sum"⟩], some Action.requestHint⟩ initState).1.chat_history =
      [⟨Role.user, "I\x27m stuck."⟩,
       ⟨Role.assistant, "Error contacting Gemini (gemini-1.5-flash): quota exceeded"⟩] :=
  (remote_failure_is_normal_hint "key" (fun _ => Except.error "quota exceeded")
    [⟨"2+2?", "4", "sum"⟩] initState "quota exceeded" (by decide) (fun _ => rfl)
    (by decide) (by decide)).2

/-- Claim C5: with the current index in range, clicking Next Problem with a
submission that fails the answer check leaves the session unchanged (in
particular no index change), and with a correct submission it increments
the index, resets the hint level to 0 and clears the transcript. -/
theorem advance_only_after_correct (ak : String)
    (rm : GeminiRequest → Except String String) (ps : List Problem)
    (s : SessionState) (sub : String)
    (h : s.current_problem_index < ps.length) :
    (answer_check sub (ps.getD s.current_problem_index ⟨"", "", ""⟩).answer = false →
      (rerun ak rm ⟨ps, some (Action.nextProblem sub)⟩ s).1 = s) ∧
    (answer_check sub (ps.getD s.current_problem_index ⟨"", "", ""⟩).answer = true →
      (rerun ak rm ⟨ps, some (Action.nextProblem sub)⟩ s).1 =
        { s with
            current_problem_index := s.current_problem_index + 1
            hint_level := 0
            chat_history := [] }) := by
  refine ⟨fun hc => ?_, fun hc => ?_⟩
  · rw [rerun_nextProblem ak rm ps s sub h]
    split
    · rename_i hcond
      rw [hc] at hcond
      simp at hcond
    · rfl
  · rw [rerun_nextProblem ak rm ps s sub h, if_pos hc]

/-- Claim C5 witness: a correct submission advances the index and clears
the attempt state. -/
theorem advance_only_after_correct_witness :
    (rerun "" (fun _ => Except.error "net")
      ⟨[⟨"2+2?", "4", "sum"⟩], some (Action.nextProblem " 4 ")⟩ initState).1 =
      { initState with
          current_problem_index := 1, hint_level := 0, chat_history := [] } :=
  (advance_only_after_correct "" (fun _ => Except.error "net")
    [⟨"2+2?", "4", "sum"⟩] initState " 4 " (by decide)).2 (by decide)

/-- Claim C6: whenever a problem is selected for display the (possibly
clamped) index lies in [0, N), and selection never touches hint level or
transcript; a rerun with no pending action — in particular the rerun
following a problem-bank reload — keeps the whole state when the index is
still valid in the new set, and otherwise only coerces the index back to
0, never resetting the hint level or the transcript. -/
theorem currentIndex_always_in_range (ak : String)
    (rm : GeminiRequest → Except String String) (ps : List Problem)
    (s : SessionState) :
    (∀ s', select ps s = some s' →
      s'.current_problem_index < ps.length ∧ s'.hint_level = s.hint_level ∧
        s'.chat_history = s.chat_history) ∧
    (s.current_problem_index < ps.length → (rerun ak rm ⟨ps, none⟩ s).1 = s) ∧
    (ps ≠ [] → ps.length ≤ s.current_problem_index →
      (rerun ak rm ⟨ps, none⟩ s).1 = { s with current_problem_index := 0 }) := by
  refine ⟨fun s' h => select_some_spec h, fun h => ?_, fun hne hge => ?_⟩
  · unfold rerun
    simp [applyReset, select_of_lt h, mainButtons]
  · unfold rerun
    simp [applyReset, select_of_ge hne hge, mainButtons]

/-- Claim C6 witness: after a reload that made the stored index 5 out of
range for a 1-problem set, the next run coerces the index to 0 and keeps
hint level and transcript. -/
theorem currentIndex_always_in_range_witness :
    (rerun "" (fun _ => Except.error "net") ⟨[⟨"2+2?", "4", "sum"⟩], none⟩
      ⟨5, 1, [⟨Role.user, "I\x27m stuck."⟩, ⟨Role.assistant, "a hint"⟩]⟩).1 =
      ⟨0, 1, [⟨Role.user, "I\x27m stuck."⟩, ⟨Role.assistant, "a hint"⟩]⟩ :=
  (currentIndex_always_in_range "" (fun _ => Except.error "net")
    [⟨"2+2?", "4", "sum"⟩]
    ⟨5, 1, [⟨Role.user, "I\x27m stuck."⟩, ⟨Role.assistant, "a hint"⟩]⟩).2.2
    (by decide) (by decide)

/-- Claim C7: Reset Session zeroes the hint level and clears the
transcript while leaving the current index and problem set unchanged —
callable at any time, even with an empty problem set — and a
correct-answer advance yields the same hint-level-0 / empty-transcript
post-state, differing only in the incremented index. -/
theorem reset_and_advance_same_frame (ak : String)
    (rm : GeminiRequest → Except String String) (ps : List Problem)
    (s : SessionState) (sub : String)
    (h : s.current_problem_index < ps.length)
    (hc : answer_check sub (ps.getD s.current_problem_index ⟨"", "", ""⟩).answer = true) :
    (rerun ak rm ⟨ps, some Action.resetSession⟩ s).1 =
      { s with hint_level := 0, chat_history := [] } ∧
    (rerun ak rm ⟨ps, some (Action.nextProblem sub)⟩ s).1 =
      { s with
          current_problem_index := s.current_problem_index + 1
          hint_level := 0
          chat_history := [] } ∧
    (rerun ak rm ⟨[], some Action.resetSession⟩ s).1 =
      { s with hint_level := 0, chat_history := [] } := by
  have hsel : select ps { s with hint_level := 0, chat_history := [] } =
      some { s with hint_level := 0, chat_history := [] } := select_of_lt h
  refine ⟨?_, ?_, rfl⟩
  · unfold rerun
    simp only [applyReset, hsel, mainButtons]
  · rw [rerun_nextProblem ak rm ps s sub h, if_pos hc]

/-- Claim C7 witness: resetting after two hints zeroes the attempt state
and keeps the index. -/
theorem reset_and_advance_same_frame_witness :
    (rerun "" (fun _ => Except.error "net")
      ⟨[⟨"2+2?", "4", "sum"⟩], some Action.resetSession⟩
      ⟨0, 1, [⟨Role.user, "I\x27m stuck."⟩, ⟨Role.assistant, "a hint"⟩]⟩).1 =
      ⟨0, 0, []⟩ :=
  (reset_and_advance_same_frame "" (fun _ => Except.error "net")
    [⟨"2+2?", "4", "sum"⟩]
    ⟨0, 1, [⟨Role.user, "I\x27m stuck."⟩, ⟨Role.assistant, "a hint"⟩]⟩ "4"
    (by decide) (by decide)).1

/-- Claim C8: with a key configured, a hint request replays a transcript of
k (student, coach) pairs as exactly k prior turns — student content under
role user, coach content under role model, in order — and issues exactly
one request whose final message is exactly
"Problem: \x27<problem text>\x27. I am stuck. Give me a Level <level> hint.". -/
theorem getHint_replays_transcript (ak : String)
    (rm : GeminiRequest → Except String String) (ptext : String)
    (pairs : List (String × String)) (lvl : Nat) (hak : ak ≠ "")
    (_hlv : 1 ≤ lvl ∧ lvl ≤ 3) :
    (get_gemini_hint ak rm ptext (pairsToTranscript pairs) lvl).2 =
      [{ system := system_instruction lvl
         history := pairsToHistory pairs
         message := "Problem: \x27" ++ ptext ++
           "\x27. I am stuck. Give me a Level " ++ toString lvl ++ " hint." }] ∧
    (pairsToHistory pairs).length = 2 * pairs.length := by
  refine ⟨?_, pairsToHistory_length pairs⟩
  rw [get_gemini_hint_calls rm ptext (pairsToTranscript pairs) lvl hak,
    buildHistory_pairsToTranscript]
  rfl

/-- Claim C8 witness: one prior pair is replayed as one user turn and one
model turn before the level-2 prompt. -/
theorem getHint_replays_transcript_witness :
    (get_gemini_hint "k" (fun _ => Except.ok "try a diagram") "2+2?"
      (pairsToTranscript [("I\x27m stuck.", "What does sum mean?")]) 2).2 =
      [{ system := system_instruction 2
         history := pairsToHistory [("I\x27m stuck.", "What does sum mean?")]
         message := "Problem: \x272+2?\x27. I am stuck. Give me a Level 2 hint." }] :=
  (getHint_replays_transcript "k" (fun _ => Except.ok "try a diagram") "2+2?"
    [("I\x27m stuck.", "What does sum mean?")] 2 (by decide) (by decide)).1

/-- Claim C9: the loader skips rows that fail to parse — 5 well-formed rows
and 1 malformed row yield 5 problems, not an error — and on a raised
exception (unreachable source, unparsable payload) it returns an empty
problem set together with the descriptive error message; the surrounding
handler makes the load total, never propagating the exception. -/
theorem load_problems_skips_bad_rows (p1 p2 p3 p4 p5 : Problem) (e : String) :
    load_problems
        (Except.ok [some p1, some p2, some p3, none, some p4, some p5]) =
      ([p1, p2, p3, p4, p5], none) ∧
    load_problems (Except.error e) =
      ([], some ("Error loading Sheet: " ++ e)) :=
  ⟨rfl, rfl⟩

/-- Claim C9 witness: a concrete 5-good/1-bad source loads exactly the five
good rows. -/
theorem load_problems_skips_bad_rows_witness :
    load_problems (Except.ok [some ⟨"2+2?", "4", "sum"⟩,
      some ⟨"3*3?", "9", "product"⟩, some ⟨"5-1?", "4", "difference"⟩, none,
      some ⟨"8/2?", "4", "quotient"⟩, some ⟨"1+0?", "1", "identity"⟩]) =
      ([⟨"2+2?", "4", "sum"⟩, ⟨"3*3?", "9", "product"⟩,
        ⟨"5-1?", "4", "difference"⟩, ⟨"8/2?", "4", "quotient"⟩,
        ⟨"1+0?", "1", "identity"⟩], none) :=
  (load_problems_skips_bad_rows ⟨"2+2?", "4", "sum"⟩ ⟨"3*3?", "9", "product"⟩
    ⟨"5-1?", "4", "difference"⟩ ⟨"8/2?", "4", "quotient"⟩
    ⟨"1+0?", "1", "identity"⟩ "HTTP 404").1

/-- Claim C10: after any sequence of reruns the transcript length equals
exactly twice the hint level, the transcript has even length, and it
strictly alternates student/coach starting with a student message. -/
theorem transcript_is_paired_with_hint_level (ak : String)
    (rm : GeminiRequest → Except String String) (trace : List Rerun) :
    (runScript ak rm trace initState).chat_history.length =
      2 * (runScript ak rm trace initState).hint_level ∧
    pairedUA (runScript ak rm trace initState).chat_history = true := by
  obtain ⟨-, pairs, hch, hlen⟩ := inv_runScript ak rm trace inv_initState
  rw [hch, pairsToTranscript_length, hlen]
  exact ⟨rfl, pairedUA_pairsToTranscript pairs⟩

/-- Claim C10 witness: one hint request yields a 2-entry transcript at hint
level 1. -/
theorem transcript_is_paired_with_hint_level_witness :
    (runScript "" (fun _ => Except.error "net")
      [⟨[⟨"2+2?", "4", "sum"⟩], some Action.requestHint⟩]
      initState).chat_history.length =
      2 * (runScript "" (fun _ => Except.error "net")
        [⟨[⟨"2+2?", "4", "sum"⟩], some Action.requestHint⟩]
        initState).hint_level :=
  (transcript_is_paired_with_hint_level "" (fun _ => Except.error "net")
    [⟨[⟨"2+2?", "4", "sum"⟩], some Action.requestHint⟩]).1

end MathCoach
